import Mathlib

/-!
Shallow embedding of the slack client library for verification.

The repository snapshot carries only tests (`chat_test.go` material in
`src/unnamed/part_000`, `src/block_image_test.go`) and example programs; the
implementation files they exercise (the real-time gateway connection manager,
`chat.go`, `block_image.go`, the debug-log redaction helper) are not present.
Each definition below that embeds such missing code is therefore modelled from
the specification's words (and, for the test-sourced claims, from the exact
behavior the tests assert), as its doc comment states.
-/

namespace SlackSpec

/-! ## Block Kit image blocks (claim C10) -/

/-- Modelled from the spec: Go's `TextBlockObject` (its defining file `block.go`
is not under `src/`); the fields follow the uses in `block_image_test.go`.
`type_` stands for the Go field `Type`, which is a Lean keyword. -/
structure TextBlockObject where
  type_ : String
  text : String
  emoji : Bool
  verbatim : Bool
deriving DecidableEq

/-- Modelled from the spec: the `NewTextBlockObject` constructor used by the
tests; it stores its four arguments unchanged. -/
def NewTextBlockObject (blockType text : String) (emoji verbatim : Bool) : TextBlockObject :=
  { type_ := blockType, text := text, emoji := emoji, verbatim := verbatim }

/-- Go's `MessageBlockType` is a string type. -/
abbrev MessageBlockType := String

/-- Modelled from the spec: the `MBTImage` constant, the discriminator string of
image blocks. -/
def MBTImage : MessageBlockType := "image"

/-- Modelled from the spec: Go's `SlackFileObject` (its defining file is not
under `src/`); the fields follow the uses in `block_image_test.go`. -/
structure SlackFileObject where
  ID : String
  URL : String
deriving DecidableEq

/-- Modelled from the spec: Go's `ImageBlock` (file `block_image.go` is not
under `src/`); the fields follow the uses in `block_image_test.go`. `type_`
stands for the Go field `Type`. -/
structure ImageBlock where
  type_ : MessageBlockType
  ImageURL : String
  AltText : String
  BlockID : String
  Title : Option TextBlockObject
  SlackFile : Option SlackFileObject
deriving DecidableEq

/-- Modelled from the spec: `ImageBlock.BlockType` returns the block's
discriminator. -/
def ImageBlock.BlockType (b : ImageBlock) : MessageBlockType := b.type_

/-- Modelled from the spec: `ImageBlock.ID` returns the block's `BlockID`. -/
def ImageBlock.ID (b : ImageBlock) : String := b.BlockID

/-- Modelled from the spec: `NewImageBlock(imageURL, altText, blockID, title)`
builds an image block of type `MBTImage` with a URL image source. -/
def NewImageBlock (imageURL altText blockID : String) (title : Option TextBlockObject) :
    ImageBlock :=
  { type_ := MBTImage, ImageURL := imageURL, AltText := altText, BlockID := blockID,
    Title := title, SlackFile := none }

/-- Modelled from the spec: `NewImageBlockSlackFile(slackFile, altText, blockID,
title)` builds an image block of type `MBTImage` with a slack-file image
source. -/
def NewImageBlockSlackFile (slackFile : Option SlackFileObject) (altText blockID : String)
    (title : Option TextBlockObject) : ImageBlock :=
  { type_ := MBTImage, ImageURL := "", AltText := altText, BlockID := blockID,
    Title := title, SlackFile := slackFile }

/-! ## REST responses and `PostMessage` errors (claim C9) -/

/-- Modelled from the spec: the common `SlackResponse` envelope with its `Ok`
flag and `Error` string, as built by `postMessageInvalidChannelHandler` in the
tests. -/
structure SlackResponse where
  Ok : Bool
  Error : String
deriving DecidableEq

/-- Modelled from the spec: extracting the error of a `SlackResponse` — when
`Ok` is false the reply's `Error` string becomes the returned error message,
otherwise there is no error. -/
def SlackResponse.Err (r : SlackResponse) : Option String :=
  if r.Ok then none else some r.Error

/-- Modelled from the spec: `chatResponseFull`, the parsed reply of the chat
endpoints, embedding a `SlackResponse`. -/
structure chatResponseFull where
  SlackResponse : SlackResponse
  Channel : String
  Timestamp : String
deriving DecidableEq

/-- Modelled from the spec: the response-handling tail of `PostMessage` (file
`chat.go` is not under `src/`). Given the parsed remote reply it returns the
channel and timestamp on success, and an error carrying exactly the reply's
`error` string when `ok` is false, as exercised by
`TestPostMessageInvalidChannel`. -/
def PostMessage (resp : chatResponseFull) : Except String (String × String) :=
  match SlackResponse.Err resp.SlackResponse with
  | some e => Except.error e
  | none => Except.ok (resp.Channel, resp.Timestamp)

/-! ## Debug-log token redaction (claim C8) -/

/-- Keeps the characters of a token before its first dash segment separator. -/
def redactChars : List Char → List Char
  | [] => []
  | ch :: cs => if ch = '-' then [] else ch :: redactChars cs

/-- Modelled from the spec: the core of the token redaction — everything after
the leading segment of the token is replaced by the literal `REDACTED`. -/
def redactCore (s : String) : String :=
  String.mk (redactChars s.data) ++ "-REDACTED"

/-- The refresh-token marker `xoxe.` as a character list. -/
def refreshMarker : List Char := ['x', 'o', 'x', 'e', '.']

/-- Modelled from the spec: the redaction applied to the `token` field of a
debug-logged request body (the helper's file is not under `src/`; the behavior
is the one asserted by `TestSendMessageContextRedactsTokenInDebugLog`): a
refresh token keeps its `xoxe.` marker and its next segment, any other token
keeps only its leading segment, and the rest is replaced by `REDACTED`. -/
def redactTokenValue (tok : String) : String :=
  if refreshMarker.isPrefixOf tok.data then
    String.mk refreshMarker ++ redactCore (String.mk (tok.data.drop 5))
  else
    redactCore tok

/-- Modelled from the spec: how one field of the form-encoded request body is
rendered into the debug log — only the `token` field is redacted, every other
field is logged unchanged. -/
def logFormValue (field value : String) : String :=
  if field = "token" then redactTokenValue value else value

/-- Modelled from the spec: the debug log of a whole form-encoded body,
field by field. -/
def logFormBody (fields : List (String × String)) : List (String × String) :=
  fields.map (fun p => (p.1, logFormValue p.1 p.2))

/-! ## Outbound correlator (claims C2, C3, C4, C6)

The real-time gateway connection manager is not under `src/`; the whole
component is modelled from the specification (§4.5, §3): pending sends are
keyed by a monotonically increasing identifier, carry the session epoch they
were submitted on and their submission time, and own a result slot that is
filled exactly once. -/

/-- Modelled from the spec: the reasons a pending send can fail —
`AckTimeout`, `SessionLost`, and the shutdown drain failure. -/
inductive FailReason
  | ackTimeout
  | sessionLost
  | shutdown
deriving DecidableEq

/-- Modelled from the spec: the value a pending send's result slot is filled
with — an acknowledgement payload or a failure reason. -/
inductive SendResult
  | ackPayload (payload : String)
  | failed (reason : FailReason)
deriving DecidableEq

/-- Modelled from the spec: a `PendingSend` record — `id`, the session epoch
the send is bound to, `submittedAt`, and the `resultSlot` filled exactly once
by success payload or failure reason. -/
structure PendingSend where
  id : Nat
  epoch : Nat
  submittedAt : Nat
  resultSlot : Option SendResult
deriving DecidableEq

/-- Modelled from the spec: the Outbound Correlator's state — the next fresh
identifier, the table of pending-send records, and the current session
epoch. -/
structure Correlator where
  nextId : Nat
  records : List PendingSend
  epoch : Nat
deriving DecidableEq

/-- Fills a record's result slot; a slot that is already filled is left
untouched (the slot is filled exactly once). -/
def setSlot (r : PendingSend) (res : SendResult) : PendingSend :=
  match r.resultSlot with
  | some _ => r
  | none => { r with resultSlot := some res }

/-- Modelled from the spec: `Submit` allocates the next identifier, stores a
`PendingSend` bound to the current session epoch, and returns the assigned
identifier. -/
def submit (c : Correlator) (now : Nat) : Correlator × Nat :=
  ({ nextId := c.nextId + 1,
     records :=
       { id := c.nextId, epoch := c.epoch, submittedAt := now, resultSlot := none } :: c.records,
     epoch := c.epoch }, c.nextId)

/-- Modelled from the spec: `Resolve(id, payload)` fills the matching record's
slot with the acknowledgement payload; an already-filled record and an unknown
id are left untouched. -/
def resolve (c : Correlator) (id : Nat) (payload : String) : Correlator :=
  { c with records :=
      c.records.map (fun r =>
        if r.id = id then setSlot r (SendResult.ackPayload payload) else r) }

/-- Modelled from the spec: `Fail(id, reason)` fills the matching record's slot
with the failure reason; an already-filled record and an unknown id are left
untouched. -/
def fail (c : Correlator) (id : Nat) (reason : FailReason) : Correlator :=
  { c with records :=
      c.records.map (fun r =>
        if r.id = id then setSlot r (SendResult.failed reason) else r) }

/-- Modelled from the spec: one pass of the timeout watcher at time `now` —
every `PendingSend` older than the configured `deadline` is failed with
`AckTimeout`. -/
def sweep (c : Correlator) (now deadline : Nat) : Correlator :=
  { c with records :=
      c.records.map (fun r =>
        if r.submittedAt + deadline ≤ now then setSlot r (SendResult.failed FailReason.ackTimeout)
        else r) }

/-- Modelled from the spec: the Supervisor-driven reconnect drain — every
`PendingSend` bound to the lost session epoch is failed with `SessionLost`,
then the epoch is advanced so that the replacement session accepts
submissions only under the new epoch. -/
def reconnectDrain (c : Correlator) : Correlator :=
  { nextId := c.nextId,
    records :=
      c.records.map (fun r =>
        if r.epoch = c.epoch then setSlot r (SendResult.failed FailReason.sessionLost) else r),
    epoch := c.epoch + 1 }

/-- The asynchronous inputs the correlator reacts to between a submission and
its resolution: acknowledgements routed by the decoder and timeout-watcher
sweeps. -/
inductive CorrEvent
  | ack (id : Nat) (payload : String)
  | sweepAt (now : Nat)
deriving DecidableEq

/-- Runs the correlator over a list of asynchronous inputs. -/
def runEvents (deadline : Nat) : Correlator → List CorrEvent → Correlator
  | c, [] => c
  | c, CorrEvent.ack id p :: es => runEvents deadline (resolve c id p) es
  | c, CorrEvent.sweepAt now :: es => runEvents deadline (sweep c now deadline) es

/-- Tests whether an input is an acknowledgement for the given id. -/
def isAckFor (id : Nat) : CorrEvent → Bool
  | CorrEvent.ack j _ => decide (j = id)
  | CorrEvent.sweepAt _ => false

/-- Tests whether an input is a timeout sweep at or past the deadline of a
record submitted at `submittedAt`. -/
def isLateSweepFor (submittedAt deadline : Nat) : CorrEvent → Bool
  | CorrEvent.ack _ _ => false
  | CorrEvent.sweepAt now => decide (submittedAt + deadline ≤ now)

/-- One step of the correlator: any of its operations applied once. -/
inductive CorrStep : Correlator → Correlator → Prop
  | submits (c : Correlator) (now : Nat) : CorrStep c (submit c now).1
  | resolves (c : Correlator) (id : Nat) (p : String) : CorrStep c (resolve c id p)
  | fails (c : Correlator) (id : Nat) (reason : FailReason) : CorrStep c (fail c id reason)
  | sweeps (c : Correlator) (now deadline : Nat) : CorrStep c (sweep c now deadline)
  | reconnects (c : Correlator) : CorrStep c (reconnectDrain c)

/-- The correlator's initial state. -/
def initCorrelator : Correlator := { nextId := 0, records := [], epoch := 0 }

/-- The correlator states reachable from the initial state. -/
def CorrReachable (c : Correlator) : Prop :=
  Relation.ReflTransGen CorrStep initCorrelator c

/-! ## Event decoder/router and the consumer queue (claim C1) -/

/-- Modelled from the spec: the classified inbound frames of the wire envelope
(§3, §4.4) — hello, liveness reply, disconnect notice, acknowledgement,
application event (with its optional acknowledgement id), and an unparseable
frame. -/
inductive Frame
  | hello
  | livenessReply
  | disconnectNotice
  | acknowledgement (id : Nat) (payload : String)
  | appEvent (ackId : Option Nat) (payload : String)
  | malformed (raw : String)
deriving DecidableEq

/-- Modelled from the spec: the consumer-visible `InboundEvent` — the session
epoch it arrived on, the optional acknowledgement id, and the typed payload. -/
structure InboundEvent where
  epoch : Nat
  ackId : Option Nat
  payload : String
deriving DecidableEq

/-- The manager state threaded through the decoder/router: the single ordered
consumer-facing queue, the correlator, and the router's internal bookkeeping
for hello and liveness-reply control frames. -/
structure ManagerState where
  queue : List InboundEvent
  corr : Correlator
  helloSeen : Bool
  livenessReplies : Nat
deriving DecidableEq

/-- Modelled from the spec: the decoder/router's handling of one inbound frame
(§4.4) — hello and liveness replies are internal bookkeeping, a disconnect
notice is handled by the supervisor and never surfaced, an acknowledgement is
forwarded to the correlator keyed by its id, an application event is appended
to the consumer queue in arrival order, and an unparseable frame is logged and
skipped. -/
def routeFrame (m : ManagerState) : Frame → ManagerState
  | Frame.hello => { m with helloSeen := true }
  | Frame.livenessReply => { m with livenessReplies := m.livenessReplies + 1 }
  | Frame.disconnectNotice => m
  | Frame.acknowledgement id p => { m with corr := resolve m.corr id p }
  | Frame.appEvent ackId p =>
      { m with queue := m.queue ++ [{ epoch := m.corr.epoch, ackId := ackId, payload := p }] }
  | Frame.malformed _ => m

/-- Routes the frames of one session's read loop, one at a time, in arrival
order. -/
def routeSession (m : ManagerState) (frames : List Frame) : ManagerState :=
  frames.foldl routeFrame m

/-- One connection epoch as the platform saw it: the frames the platform
dropped before the manager's read loop started, and the frames the read loop
actually delivered, in arrival order. -/
structure SessionLog where
  droppedBeforeReadLoop : List Frame
  delivered : List Frame
deriving DecidableEq

/-- Modelled from the spec: one supervisor connect cycle — the old session's
pending sends are drained (failed with `SessionLost`) and the epoch advanced,
then the new session's delivered frames are routed; the frames the platform
dropped before the read loop started never reach the router. -/
def connectAndRoute (m : ManagerState) (s : SessionLog) : ManagerState :=
  routeSession { m with corr := reconnectDrain m.corr } s.delivered

/-- Runs the manager over a sequence of connection epochs (one or more
reconnects). -/
def runManager (sessions : List SessionLog) : ManagerState :=
  sessions.foldl connectAndRoute
    { queue := [], corr := initCorrelator, helloSeen := false, livenessReplies := 0 }

/-- The application frames of a frame sequence, in order, projected to their
consumer-visible content. -/
def appPayloads (frames : List Frame) : List (Option Nat × String) :=
  frames.filterMap (fun f =>
    match f with
    | Frame.appEvent ackId p => some (ackId, p)
    | _ => none)

/-- The consumer-visible content of an inbound event. -/
def eventPayload (e : InboundEvent) : Option Nat × String := (e.ackId, e.payload)

/-! ## Reconnect backoff (claim C5) -/

/-- Modelled from the spec: the backoff state — the consecutive failed-attempt
counter (§3). -/
structure Backoff where
  attempts : Nat
deriving DecidableEq

/-- Modelled from the spec: the nominal backoff delay — exponential growth
from the `base` delay, capped at `cap` (§4.1; the randomized jitter applied on
top of this nominal value is outside the deterministic model). -/
def backoffDelay (base cap : Nat) (b : Backoff) : Nat :=
  min (base * 2 ^ b.attempts) cap

/-- Modelled from the spec: a failed connection attempt advances the attempt
counter. -/
def onFailedAttempt (b : Backoff) : Backoff := { attempts := b.attempts + 1 }

/-- Modelled from the spec: the outcome of a connection that stayed up for
`connectedFor` — sustained past the minimum dwell time it resets the counter
to zero, terminated prematurely it advances the counter. -/
def onConnectionOutcome (b : Backoff) (connectedFor minDwell : Nat) : Backoff :=
  if minDwell ≤ connectedFor then { attempts := 0 } else { attempts := b.attempts + 1 }

/-! ## One-shot acknowledge capability (claim C7) -/

/-- Modelled from the spec: the one-shot acknowledge capability attached to an
application event that requires acknowledgement — it is bound to the event's
id and to the session epoch that was current when the event was surfaced
(§4.4). -/
structure AckCapability where
  ackId : Nat
  epoch : Nat
deriving DecidableEq

/-- Modelled from the spec: the observable outcome of invoking an acknowledge
capability — an acknowledgement frame written to the session, or the logged
`StaleAcknowledgement` no-op. -/
inductive AckOutcome
  | sent (id : Nat)
  | staleAcknowledgement
deriving DecidableEq

/-- The manager state the acknowledge path sees: the current session epoch and
the acknowledgement frames written to the current session. -/
structure AckManagerState where
  epoch : Nat
  sentAcks : List Nat
deriving DecidableEq

/-- Modelled from the spec: invoking an acknowledge capability — on the epoch
it is bound to it writes the acknowledgement frame, after the session has
rotated it is a no-op reported as `StaleAcknowledgement`; the function is
total, so the manager never crashes on a late acknowledgement. -/
def invokeAck (m : AckManagerState) (cap : AckCapability) : AckManagerState × AckOutcome :=
  if cap.epoch = m.epoch then
    ({ m with sentAcks := m.sentAcks ++ [cap.ackId] }, AckOutcome.sent cap.ackId)
  else
    (m, AckOutcome.staleAcknowledgement)

/-- Modelled from the spec: a session rotation — the epoch advances and the
replacement session starts with no acknowledgement frames written. -/
def rotateSession (m : AckManagerState) : AckManagerState :=
  { epoch := m.epoch + 1, sentAcks := [] }

/-! ## Helper lemmas about `setSlot` and record updates -/

lemma setSlot_id (r : PendingSend) (res : SendResult) : (setSlot r res).id = r.id := by
  rcases r with ⟨i, e, t, s⟩
  cases s <;> rfl

lemma setSlot_epoch (r : PendingSend) (res : SendResult) : (setSlot r res).epoch = r.epoch := by
  rcases r with ⟨i, e, t, s⟩
  cases s <;> rfl

lemma setSlot_of_filled (r : PendingSend) (res : SendResult) (h : r.resultSlot ≠ none) :
    setSlot r res = r := by
  rcases r with ⟨i, e, t, s⟩
  cases s with
  | none => exact absurd rfl h
  | some res0 => rfl

lemma setSlot_of_none (r : PendingSend) (res : SendResult) (h : r.resultSlot = none) :
    setSlot r res = { r with resultSlot := some res } := by
  rcases r with ⟨i, e, t, s⟩
  cases s with
  | none => rfl
  | some res0 => simp at h

lemma setSlot_setSlot (r : PendingSend) (res res' : SendResult) :
    setSlot (setSlot r res) res' = setSlot r res := by
  rcases r with ⟨i, e, t, s⟩
  cases s <;> rfl

lemma setSlot_ne_none (r : PendingSend) (res : SendResult) :
    (setSlot r res).resultSlot ≠ none := by
  rcases r with ⟨i, e, t, s⟩
  cases s <;> simp [setSlot]

lemma map_ids_of_preserve (g : PendingSend → PendingSend) (hg : ∀ r, (g r).id = r.id)
    (l : List PendingSend) : (l.map g).map PendingSend.id = l.map PendingSend.id := by
  induction l with
  | nil => rfl
  | cons r l ih => simp [hg, ih]

/-! ## Claim C10 — image block constructors -/

/-- C10: for every title, alt-text, blockID and image source, the blocks built
by `NewImageBlock` and `NewImageBlockSlackFile` have `BlockType` equal to
`MBTImage`, type string `"image"`, `ID` and `BlockID` equal to the given
blockID, and store the title, alt-text and image source unchanged. -/
theorem newImageBlock_fields (imageURL altText blockID : String)
    (title : Option TextBlockObject) (sf : Option SlackFileObject) :
    (NewImageBlock imageURL altText blockID title).BlockType = MBTImage ∧
    (NewImageBlock imageURL altText blockID title).type_ = "image" ∧
    (NewImageBlock imageURL altText blockID title).ID = blockID ∧
    (NewImageBlock imageURL altText blockID title).BlockID = blockID ∧
    (NewImageBlock imageURL altText blockID title).Title = title ∧
    (NewImageBlock imageURL altText blockID title).AltText = altText ∧
    (NewImageBlock imageURL altText blockID title).ImageURL = imageURL ∧
    (NewImageBlockSlackFile sf altText blockID title).BlockType = MBTImage ∧
    (NewImageBlockSlackFile sf altText blockID title).type_ = "image" ∧
    (NewImageBlockSlackFile sf altText blockID title).ID = blockID ∧
    (NewImageBlockSlackFile sf altText blockID title).BlockID = blockID ∧
    (NewImageBlockSlackFile sf altText blockID title).Title = title ∧
    (NewImageBlockSlackFile sf altText blockID title).AltText = altText ∧
    (NewImageBlockSlackFile sf altText blockID title).SlackFile = sf :=
  ⟨rfl, rfl, rfl, rfl, rfl, rfl, rfl, rfl, rfl, rfl, rfl, rfl, rfl, rfl⟩

/-! ## Claim C9 — `PostMessage` surfaces the remote error string -/

/-- C9: for every remote reply with `ok = false` and error string `E`,
`PostMessage` returns an error whose message is exactly `E`. -/
theorem postMessage_not_ok_returns_error (resp : chatResponseFull) (E : String)
    (hok : resp.SlackResponse.Ok = false) (herr : resp.SlackResponse.Error = E) :
    PostMessage resp = Except.error E := by
  simp [PostMessage, SlackResponse.Err, hok, herr]

/-- Witness for C9 at the reply built by `postMessageInvalidChannelHandler`. -/
theorem postMessage_not_ok_returns_error_witness :
    PostMessage
        { SlackResponse := { Ok := false, Error := "channel_not_found" },
          Channel := "", Timestamp := "" }
      = Except.error "channel_not_found" :=
  postMessage_not_ok_returns_error _ "channel_not_found" rfl rfl

/-! ## Claim C5 — backoff monotone up to the cap, reset after dwell -/

lemma backoffDelay_mono (base cap m n : Nat) (h : m ≤ n) :
    backoffDelay base cap { attempts := m } ≤ backoffDelay base cap { attempts := n } := by
  unfold backoffDelay
  exact min_le_min (Nat.mul_le_mul (le_refl base) (Nat.pow_le_pow_right (by norm_num) h))
    (le_refl cap)

/-- C5: across consecutive failed attempts the backoff delay is non-decreasing
and never exceeds the cap, and a connection that survives past the minimum
dwell time resets the state to the baseline delay, while a premature
termination advances the counter like a failure. -/
theorem backoff_monotone_capped_resets (base cap minDwell : Nat) (b : Backoff) :
    backoffDelay base cap b ≤ backoffDelay base cap (onFailedAttempt b) ∧
    (∀ m n : Nat, m ≤ n →
      backoffDelay base cap { attempts := m } ≤ backoffDelay base cap { attempts := n }) ∧
    backoffDelay base cap b ≤ cap ∧
    (∀ dur, minDwell ≤ dur →
      onConnectionOutcome b dur minDwell = { attempts := 0 } ∧
      backoffDelay base cap (onConnectionOutcome b dur minDwell) = min base cap) ∧
    (∀ dur, dur < minDwell → onConnectionOutcome b dur minDwell = onFailedAttempt b) := by
  refine ⟨?_, backoffDelay_mono base cap, ?_, ?_, ?_⟩
  · exact backoffDelay_mono base cap b.attempts (b.attempts + 1) (Nat.le_succ _)
  · exact min_le_right _ _
  · intro dur hdur
    constructor
    · simp [onConnectionOutcome, hdur]
    · simp [onConnectionOutcome, hdur, backoffDelay]
  · intro dur hdur
    simp [onConnectionOutcome, Nat.not_le.mpr hdur, onFailedAttempt]

/-- Witness for C5: base 1, cap 8, dwell 10, two prior failed attempts. -/
theorem backoff_monotone_capped_resets_witness :
    backoffDelay 1 8 { attempts := 2 } ≤ backoffDelay 1 8 (onFailedAttempt { attempts := 2 }) ∧
    backoffDelay 1 8 { attempts := 1 } ≤ backoffDelay 1 8 { attempts := 3 } ∧
    backoffDelay 1 8 { attempts := 2 } ≤ 8 ∧
    onConnectionOutcome { attempts := 2 } 12 10 = { attempts := 0 } ∧
    backoffDelay 1 8 (onConnectionOutcome { attempts := 2 } 12 10) = min 1 8 ∧
    onConnectionOutcome { attempts := 2 } 3 10 = onFailedAttempt { attempts := 2 } := by
  have h := backoff_monotone_capped_resets 1 8 10 { attempts := 2 }
  have h4 := h.2.2.2.1 12 (by decide)
  exact ⟨h.1, h.2.1 1 3 (by decide), h.2.2.1, h4.1, h4.2, h.2.2.2.2 3 (by decide)⟩

/-! ## Claim C7 — stale acknowledgement after session rotation -/

/-- C7: an acknowledge capability bound to the current session sends the
acknowledgement frame, and invoking it after any session rotation is a no-op
on the manager state that reports `StaleAcknowledgement`; `invokeAck` is a
total function, so the late invocation never crashes the manager. -/
theorem stale_ack_after_rotation (m : AckManagerState) (cap : AckCapability)
    (h : cap.epoch = m.epoch) :
    invokeAck m cap
      = ({ m with sentAcks := m.sentAcks ++ [cap.ackId] }, AckOutcome.sent cap.ackId) ∧
    invokeAck (rotateSession m) cap = (rotateSession m, AckOutcome.staleAcknowledgement) ∧
    (∀ m' : AckManagerState, m.epoch < m'.epoch →
      invokeAck m' cap = (m', AckOutcome.staleAcknowledgement)) := by
  refine ⟨?_, ?_, ?_⟩
  · simp [invokeAck, h]
  · have hne : cap.epoch ≠ (rotateSession m).epoch := by
      simp only [rotateSession, h]
      omega
    simp [invokeAck, hne]
  · intro m' hm'
    have hne : cap.epoch ≠ m'.epoch := by omega
    simp [invokeAck, hne]

/-- Witness for C7 at the spec's scenario: event id 42, session rotated once. -/
theorem stale_ack_after_rotation_witness :
    invokeAck { epoch := 0, sentAcks := [] } { ackId := 42, epoch := 0 }
      = ({ epoch := 0, sentAcks := [42] }, AckOutcome.sent 42) ∧
    invokeAck (rotateSession { epoch := 0, sentAcks := [] }) { ackId := 42, epoch := 0 }
      = (rotateSession { epoch := 0, sentAcks := [] }, AckOutcome.staleAcknowledgement) ∧
    invokeAck { epoch := 5, sentAcks := [] } { ackId := 42, epoch := 0 }
      = ({ epoch := 5, sentAcks := [] }, AckOutcome.staleAcknowledgement) := by
  have h := stale_ack_after_rotation { epoch := 0, sentAcks := [] } { ackId := 42, epoch := 0 } rfl
  exact ⟨h.1, h.2.1, h.2.2 { epoch := 5, sentAcks := [] } (by decide)⟩

/-! ## Claim C6 — `Resolve` and `Fail` are idempotent -/

lemma records_update_twice (i : Nat) (res res' : SendResult) (l : List PendingSend) :
    (l.map (fun r => if r.id = i then setSlot r res else r)).map
        (fun r => if r.id = i then setSlot r res' else r)
      = l.map (fun r => if r.id = i then setSlot r res else r) := by
  induction l with
  | nil => rfl
  | cons r l ih =>
    simp only [List.map_cons, ih]
    by_cases h : r.id = i
    · rw [if_pos h, if_pos (by rw [setSlot_id]; exact h), setSlot_setSlot]
    · rw [if_neg h, if_neg h]

lemma records_update_absent (i : Nat) (res : SendResult) (l : List PendingSend)
    (h : ∀ r ∈ l, r.id ≠ i) :
    l.map (fun r => if r.id = i then setSlot r res else r) = l := by
  induction l with
  | nil => rfl
  | cons r l ih =>
    simp only [List.map_cons]
    rw [if_neg (h r (List.mem_cons_self r l)),
      ih (fun r' hr' => h r' (List.mem_cons_of_mem r hr'))]

/-- C6: `Resolve(id, payload)` and `Fail(id, reason)` are idempotent — a
record already resolved or failed is untouched by any later duplicate signal
with the same id, and applying either to an id with no outstanding record
leaves the correlator unchanged. -/
theorem resolve_fail_idempotent (c : Correlator) (i : Nat) (p q : String)
    (reason reason' : FailReason) :
    resolve (resolve c i p) i q = resolve c i p ∧
    fail (resolve c i p) i reason = resolve c i p ∧
    fail (fail c i reason) i reason' = fail c i reason ∧
    resolve (fail c i reason) i p = fail c i reason ∧
    ((∀ r ∈ c.records, r.id ≠ i) → resolve c i p = c ∧ fail c i reason = c) := by
  refine ⟨?_, ?_, ?_, ?_, ?_⟩
  · simp only [resolve]
    rw [records_update_twice]
  · simp only [resolve, fail]
    rw [records_update_twice]
  · simp only [fail]
    rw [records_update_twice]
  · simp only [resolve, fail]
    rw [records_update_twice]
  · intro h
    constructor
    · simp only [resolve]
      rw [records_update_absent i _ c.records h]
    · simp only [fail]
      rw [records_update_absent i _ c.records h]

/-- Witness for C6: one pending record with id 0; duplicate resolutions of id 0
collapse and a resolution of the unknown id 5 is a no-op. -/
theorem resolve_fail_idempotent_witness :
    resolve (resolve (⟨1, [⟨0, 0, 0, none⟩], 0⟩ : Correlator) 0 "a") 0 "b"
      = resolve (⟨1, [⟨0, 0, 0, none⟩], 0⟩ : Correlator) 0 "a" ∧
    fail (resolve (⟨1, [⟨0, 0, 0, none⟩], 0⟩ : Correlator) 0 "a") 0 FailReason.ackTimeout
      = resolve (⟨1, [⟨0, 0, 0, none⟩], 0⟩ : Correlator) 0 "a" ∧
    resolve (⟨1, [⟨0, 0, 0, none⟩], 0⟩ : Correlator) 5 "a"
      = (⟨1, [⟨0, 0, 0, none⟩], 0⟩ : Correlator) := by
  have h1 := resolve_fail_idempotent ⟨1, [⟨0, 0, 0, none⟩], 0⟩ 0 "a" "b"
    FailReason.ackTimeout FailReason.ackTimeout
  have h2 := resolve_fail_idempotent ⟨1, [⟨0, 0, 0, none⟩], 0⟩ 5 "a" "b"
    FailReason.ackTimeout FailReason.ackTimeout
  exact ⟨h1.1, h1.2.1, (h2.2.2.2.2 (by decide)).1⟩

/-! ## Claim C3 — reconnect fails old-session pendings before new sends -/

/-- C3: the supervisor-driven reconnect drain fails every `PendingSend` bound
to the lost session with `SessionLost`, leaves no old-session record dangling,
advances the session epoch, and only then does `submit` accept a submission —
which is bound to the replacement epoch, so no submission is silently
forgotten. -/
theorem reconnect_fails_old_session_pendings (c : Correlator) (now : Nat) :
    (∀ r ∈ c.records, r.epoch = c.epoch → r.resultSlot = none →
      ({ r with resultSlot := some (SendResult.failed FailReason.sessionLost) } : PendingSend)
        ∈ (reconnectDrain c).records) ∧
    (∀ r ∈ (reconnectDrain c).records, r.epoch = c.epoch → r.resultSlot ≠ none) ∧
    (reconnectDrain c).epoch = c.epoch + 1 ∧
    (submit (reconnectDrain c) now).1.records
      = { id := c.nextId, epoch := c.epoch + 1, submittedAt := now, resultSlot := none }
          :: (reconnectDrain c).records := by
  refine ⟨?_, ?_, rfl, rfl⟩
  · intro r hr he hs
    refine List.mem_map.mpr ⟨r, hr, ?_⟩
    rw [if_pos he, setSlot_of_none r _ hs]
  · intro r' hr' he'
    obtain ⟨r, hr, rfl⟩ := List.mem_map.mp hr'
    by_cases h : r.epoch = c.epoch
    · rw [if_pos h]
      exact setSlot_ne_none r _
    · rw [if_neg h] at he'
      exact absurd he' h

/-- Witness for C3: one pending and one resolved record on epoch 0; the
pending one is failed with `SessionLost` by the drain, and the next submission
is bound to epoch 1. -/
theorem reconnect_fails_old_session_pendings_witness :
    (⟨0, 0, 0, some (SendResult.failed FailReason.sessionLost)⟩ : PendingSend)
      ∈ (reconnectDrain (⟨2, [⟨0, 0, 0, none⟩,
          ⟨1, 0, 1, some (SendResult.ackPayload "ok")⟩], 0⟩ : Correlator)).records ∧
    (reconnectDrain (⟨2, [⟨0, 0, 0, none⟩,
        ⟨1, 0, 1, some (SendResult.ackPayload "ok")⟩], 0⟩ : Correlator)).epoch = 0 + 1 ∧
    (submit (reconnectDrain (⟨2, [⟨0, 0, 0, none⟩,
        ⟨1, 0, 1, some (SendResult.ackPayload "ok")⟩], 0⟩ : Correlator)) 7).1.records
      = (⟨2, 0 + 1, 7, none⟩ : PendingSend)
          :: (reconnectDrain (⟨2, [⟨0, 0, 0, none⟩,
              ⟨1, 0, 1, some (SendResult.ackPayload "ok")⟩], 0⟩ : Correlator)).records := by
  have h := reconnect_fails_old_session_pendings
    ⟨2, [⟨0, 0, 0, none⟩, ⟨1, 0, 1, some (SendResult.ackPayload "ok")⟩], 0⟩ 7
  refine ⟨?_, h.2.2.1, h.2.2.2⟩
  exact h.1 ⟨0, 0, 0, none⟩ (by decide) rfl rfl

/-! ## Claim C2 — acknowledgement before timeout, `AckTimeout` after -/

lemma filled_mem_resolve (c : Correlator) (i : Nat) (p : String) (r : PendingSend)
    (h : r.resultSlot ≠ none) (hr : r ∈ c.records) : r ∈ (resolve c i p).records := by
  refine List.mem_map.mpr ⟨r, hr, ?_⟩
  by_cases hid : r.id = i
  · rw [if_pos hid, setSlot_of_filled r _ h]
  · rw [if_neg hid]

lemma filled_mem_sweep (c : Correlator) (now d : Nat) (r : PendingSend)
    (h : r.resultSlot ≠ none) (hr : r ∈ c.records) : r ∈ (sweep c now d).records := by
  refine List.mem_map.mpr ⟨r, hr, ?_⟩
  by_cases hlate : r.submittedAt + d ≤ now
  · rw [if_pos hlate, setSlot_of_filled r _ h]
  · rw [if_neg hlate]

lemma filled_mem_runEvents (d : Nat) (es : List CorrEvent) (c : Correlator) (r : PendingSend)
    (h : r.resultSlot ≠ none) (hr : r ∈ c.records) : r ∈ (runEvents d c es).records := by
  induction es generalizing c with
  | nil => exact hr
  | cons ev es ih =>
    cases ev with
    | ack i p => exact ih (resolve c i p) (filled_mem_resolve c i p r h hr)
    | sweepAt now => exact ih (sweep c now d) (filled_mem_sweep c now d r h hr)

lemma pending_mem_resolve_ne (c : Correlator) (i : Nat) (p : String) (r : PendingSend)
    (hid : r.id ≠ i) (hr : r ∈ c.records) : r ∈ (resolve c i p).records := by
  refine List.mem_map.mpr ⟨r, hr, ?_⟩
  rw [if_neg hid]

lemma pending_mem_sweep_early (c : Correlator) (now d : Nat) (r : PendingSend)
    (h : now < r.submittedAt + d) (hr : r ∈ c.records) : r ∈ (sweep c now d).records := by
  refine List.mem_map.mpr ⟨r, hr, ?_⟩
  rw [if_neg (Nat.not_le.mpr h)]

lemma pending_mem_runEvents (d : Nat) (es : List CorrEvent) (r : PendingSend) :
    ∀ c : Correlator,
      (∀ ev ∈ es, isAckFor r.id ev = false ∧ isLateSweepFor r.submittedAt d ev = false) →
      r ∈ c.records → r ∈ (runEvents d c es).records := by
  induction es with
  | nil =>
    intro c _ hr
    exact hr
  | cons ev es ih =>
    intro c hes hr
    have hev := hes ev (List.mem_cons_self ev es)
    have hrest : ∀ ev' ∈ es, isAckFor r.id ev' = false ∧
        isLateSweepFor r.submittedAt d ev' = false :=
      fun ev' hev' => hes ev' (List.mem_cons_of_mem ev hev')
    cases ev with
    | ack i p =>
      have hne : r.id ≠ i := by
        intro h
        have h1 := hev.1
        rw [isAckFor] at h1
        simp [h] at h1
      exact ih (resolve c i p) hrest (pending_mem_resolve_ne c i p r hne hr)
    | sweepAt now =>
      have hearly : now < r.submittedAt + d := by
        have h2 := hev.2
        rw [isLateSweepFor] at h2
        simp at h2
        omega
      exact ih (sweep c now d) hrest (pending_mem_sweep_early c now d r hearly hr)

lemma resolve_sets_pending (c : Correlator) (i : Nat) (p : String) (r : PendingSend)
    (hid : r.id = i) (hslot : r.resultSlot = none) (hr : r ∈ c.records) :
    ({ r with resultSlot := some (SendResult.ackPayload p) } : PendingSend)
      ∈ (resolve c i p).records := by
  refine List.mem_map.mpr ⟨r, hr, ?_⟩
  rw [if_pos hid, setSlot_of_none r _ hslot]

lemma sweep_sets_pending (c : Correlator) (now d : Nat) (r : PendingSend)
    (hlate : r.submittedAt + d ≤ now) (hslot : r.resultSlot = none) (hr : r ∈ c.records) :
    ({ r with resultSlot := some (SendResult.failed FailReason.ackTimeout) } : PendingSend)
      ∈ (sweep c now d).records := by
  refine List.mem_map.mpr ⟨r, hr, ?_⟩
  rw [if_pos hlate, setSlot_of_none r _ hslot]

/-- C2: for a pending send with id `i` submitted at time `t` under deadline
`d` — if its acknowledgement arrives, the record resolves with the
acknowledgement payload and stays resolved through any later inputs; if no
acknowledgement for it ever arrives, the record is still pending at every
sweep before `t + d` and is failed with `AckTimeout` by the first sweep at or
past `t + d`. -/
theorem submit_ack_or_timeout (c : Correlator) (i e t d : Nat)
    (hmem : (⟨i, e, t, none⟩ : PendingSend) ∈ c.records) :
    (∀ (p : String) (es : List CorrEvent),
      (⟨i, e, t, some (SendResult.ackPayload p)⟩ : PendingSend)
        ∈ (runEvents d (resolve c i p) es).records) ∧
    (∀ (es : List CorrEvent) (now : Nat),
      (∀ ev ∈ es, isAckFor i ev = false ∧ isLateSweepFor t d ev = false) →
      t + d ≤ now →
      (⟨i, e, t, some (SendResult.failed FailReason.ackTimeout)⟩ : PendingSend)
        ∈ (sweep (runEvents d c es) now d).records) ∧
    (∀ (es : List CorrEvent) (now : Nat),
      (∀ ev ∈ es, isAckFor i ev = false ∧ isLateSweepFor t d ev = false) →
      now < t + d →
      (⟨i, e, t, none⟩ : PendingSend) ∈ (sweep (runEvents d c es) now d).records) := by
  refine ⟨?_, ?_, ?_⟩
  · intro p es
    refine filled_mem_runEvents d es (resolve c i p) _ (by simp) ?_
    exact resolve_sets_pending c i p ⟨i, e, t, none⟩ rfl rfl hmem
  · intro es now hes hnow
    have hpend : (⟨i, e, t, none⟩ : PendingSend) ∈ (runEvents d c es).records :=
      pending_mem_runEvents d es ⟨i, e, t, none⟩ c hes hmem
    exact sweep_sets_pending (runEvents d c es) now d ⟨i, e, t, none⟩ hnow rfl hpend
  · intro es now hes hnow
    have hpend : (⟨i, e, t, none⟩ : PendingSend) ∈ (runEvents d c es).records :=
      pending_mem_runEvents d es ⟨i, e, t, none⟩ c hes hmem
    exact pending_mem_sweep_early (runEvents d c es) now d ⟨i, e, t, none⟩ hnow hpend

/-- Witness for C2: one record with id 0 submitted at time 0 under deadline 5;
an acknowledgement resolves it with its payload, a sweep at time 5 fails it
with `AckTimeout`, and a sweep at time 4 leaves it pending. -/
theorem submit_ack_or_timeout_witness :
    (⟨0, 0, 0, some (SendResult.ackPayload "ok")⟩ : PendingSend)
      ∈ (runEvents 5 (resolve (⟨1, [⟨0, 0, 0, none⟩], 0⟩ : Correlator) 0 "ok")
          [CorrEvent.sweepAt 9]).records ∧
    (⟨0, 0, 0, some (SendResult.failed FailReason.ackTimeout)⟩ : PendingSend)
      ∈ (sweep (runEvents 5 (⟨1, [⟨0, 0, 0, none⟩], 0⟩ : Correlator)
          [CorrEvent.sweepAt 4]) 5 5).records ∧
    (⟨0, 0, 0, none⟩ : PendingSend)
      ∈ (sweep (runEvents 5 (⟨1, [⟨0, 0, 0, none⟩], 0⟩ : Correlator)
          [CorrEvent.sweepAt 3]) 4 5).records := by
  have h := submit_ack_or_timeout ⟨1, [⟨0, 0, 0, none⟩], 0⟩ 0 0 0 5 (by decide)
  exact ⟨h.1 "ok" [CorrEvent.sweepAt 9],
    h.2.1 [CorrEvent.sweepAt 4] 5 (by decide) (by decide),
    h.2.2 [CorrEvent.sweepAt 3] 4 (by decide) (by decide)⟩

/-! ## Claim C4 — unique, monotonically increasing identifiers -/

lemma invariant_preserved_map (c : Correlator) (g : PendingSend → PendingSend)
    (hg : ∀ r, (g r).id = r.id)
    (h1 : (c.records.map PendingSend.id).Nodup) (h2 : ∀ r ∈ c.records, r.id < c.nextId) :
    ((c.records.map g).map PendingSend.id).Nodup ∧
    (∀ r ∈ c.records.map g, r.id < c.nextId) := by
  constructor
  · rw [map_ids_of_preserve g hg]
    exact h1
  · intro r hr
    obtain ⟨r0, hr0, rfl⟩ := List.mem_map.mp hr
    rw [hg]
    exact h2 r0 hr0

lemma cond_setSlot_preserves_id (cond : PendingSend → Bool) (res : SendResult) :
    ∀ r : PendingSend, ((if cond r then setSlot r res else r) : PendingSend).id = r.id := by
  intro r
  by_cases h : cond r
  · rw [if_pos h, setSlot_id]
  · rw [if_neg h]

/-- C4: in every reachable correlator state the outstanding record ids are
pairwise distinct (at most one `PendingSend` per id, no id reused while its
record is outstanding), every recorded id is below `nextId`, and the
identifier `submit` assigns next is strictly greater than every previously
assigned one. -/
theorem correlator_id_invariant (c : Correlator) (h : CorrReachable c) :
    (c.records.map PendingSend.id).Nodup ∧
    (∀ r ∈ c.records, r.id < c.nextId) ∧
    (∀ now : Nat, (submit c now).2 = c.nextId ∧
      ∀ r ∈ c.records, r.id < (submit c now).2) := by
  have main : (c.records.map PendingSend.id).Nodup ∧ ∀ r ∈ c.records, r.id < c.nextId := by
    induction h with
    | refl => simp [initCorrelator]
    | @tail b c2 hsteps hstep ih =>
      cases hstep with
      | submits now =>
        obtain ⟨ih1, ih2⟩ := ih
        constructor
        · simp only [submit, List.map_cons]
          refine List.nodup_cons.mpr ⟨?_, ih1⟩
          intro hmem
          obtain ⟨r0, hr0, hid⟩ := List.mem_map.mp hmem
          exact absurd hid (Nat.ne_of_lt (ih2 r0 hr0))
        · intro r hr
          simp only [submit, List.mem_cons] at hr
          cases hr with
          | inl h0 =>
            rw [h0]
            exact Nat.lt_succ_self _
          | inr h0 => exact Nat.lt_succ_of_lt (ih2 r h0)
      | resolves i p =>
        exact invariant_preserved_map _
          (fun r => if r.id = i then setSlot r (SendResult.ackPayload p) else r)
          (fun r => by
            dsimp only
            by_cases h0 : r.id = i
            · rw [if_pos h0, setSlot_id]
            · rw [if_neg h0])
          ih.1 ih.2
      | fails i reason =>
        exact invariant_preserved_map _
          (fun r => if r.id = i then setSlot r (SendResult.failed reason) else r)
          (fun r => by
            dsimp only
            by_cases h0 : r.id = i
            · rw [if_pos h0, setSlot_id]
            · rw [if_neg h0])
          ih.1 ih.2
      | sweeps now deadline =>
        exact invariant_preserved_map _
          (fun r => if r.submittedAt + deadline ≤ now then
              setSlot r (SendResult.failed FailReason.ackTimeout) else r)
          (fun r => by
            dsimp only
            by_cases h0 : r.submittedAt + deadline ≤ now
            · rw [if_pos h0, setSlot_id]
            · rw [if_neg h0])
          ih.1 ih.2
      | reconnects =>
        exact invariant_preserved_map _
          (fun r => if r.epoch = b.epoch then
              setSlot r (SendResult.failed FailReason.sessionLost) else r)
          (fun r => by
            dsimp only
            by_cases h0 : r.epoch = b.epoch
            · rw [if_pos h0, setSlot_id]
            · rw [if_neg h0])
          ih.1 ih.2
  exact ⟨main.1, main.2, fun now => ⟨rfl, fun r hr => main.2 r hr⟩⟩

/-- Witness for C4 at the state reached after one submission from the initial
state. -/
theorem correlator_id_invariant_witness :
    (((submit initCorrelator 0).1.records.map PendingSend.id)).Nodup ∧
    PendingSend.id ⟨0, 0, 0, none⟩ < (submit initCorrelator 0).1.nextId ∧
    (submit (submit initCorrelator 0).1 1).2 = (submit initCorrelator 0).1.nextId := by
  have h := correlator_id_invariant (submit initCorrelator 0).1
    (Relation.ReflTransGen.single (CorrStep.submits initCorrelator 0))
  exact ⟨h.1, h.2.1 ⟨0, 0, 0, none⟩ (by decide), (h.2.2 1).1⟩

/-! ## Claim C1 — the consumer queue preserves platform arrival order -/

lemma appPayloads_append (a b : List Frame) :
    appPayloads (a ++ b) = appPayloads a ++ appPayloads b := by
  simp [appPayloads, List.filterMap_append]

lemma routeSession_queue_payloads (fs : List Frame) :
    ∀ m : ManagerState, (routeSession m fs).queue.map eventPayload
      = m.queue.map eventPayload ++ appPayloads fs := by
  induction fs with
  | nil =>
    intro m
    simp [routeSession, appPayloads]
  | cons f fs ih =>
    intro m
    show (routeSession (routeFrame m f) fs).queue.map eventPayload = _
    rw [ih (routeFrame m f)]
    cases f <;> simp [routeFrame, appPayloads, eventPayload, List.filterMap_cons]

lemma foldl_connect_queue (sessions : List SessionLog) :
    ∀ m : ManagerState, (sessions.foldl connectAndRoute m).queue.map eventPayload
      = m.queue.map eventPayload
          ++ appPayloads ((sessions.map SessionLog.delivered).flatten) := by
  induction sessions with
  | nil =>
    intro m
    simp [appPayloads]
  | cons s ss ih =>
    intro m
    show (ss.foldl connectAndRoute (connectAndRoute m s)).queue.map eventPayload = _
    rw [ih (connectAndRoute m s), connectAndRoute, routeSession_queue_payloads]
    have hj : ((s :: ss).map SessionLog.delivered).flatten
        = s.delivered ++ (ss.map SessionLog.delivered).flatten := rfl
    rw [hj, appPayloads_append, List.append_assoc]

/-- C1: for every sequence of connection epochs, the consumer-facing event
queue produced by the manager run is exactly the application frames that
reached the read loops, in platform arrival order — no reordering, no
duplicates, no gaps; the frames the platform dropped before each read loop
started are the only ones excluded. -/
theorem consumer_queue_preserves_arrival_order (sessions : List SessionLog) :
    (runManager sessions).queue.map eventPayload
      = appPayloads ((sessions.map SessionLog.delivered).flatten) := by
  have h := foldl_connect_queue sessions
    { queue := [], corr := initCorrelator, helloSeen := false, livenessReplies := 0 }
  simpa [runManager] using h

/-! ## Claim C8 — debug log redacts the token and only the token -/

lemma mk_data (s : String) : String.mk s.data = s := by
  cases s
  rfl

lemma redactChars_append (a b : List Char) (ha : ('-' : Char) ∉ a) :
    redactChars (a ++ '-' :: b) = a := by
  induction a with
  | nil => simp [redactChars]
  | cons ch a ih =>
    rw [List.mem_cons] at ha
    push_neg at ha
    have hne : ch ≠ '-' := fun h => ha.1 h.symm
    simp [redactChars, hne, ih ha.2]

lemma redactCore_append (a b : String) (ha : ('-' : Char) ∉ a.data) :
    redactCore (a ++ "-" ++ b) = a ++ "-REDACTED" := by
  unfold redactCore
  have hdata : (a ++ "-" ++ b).data = a.data ++ '-' :: b.data := by
    rw [String.data_append, String.data_append]
    simp
  rw [hdata, redactChars_append a.data b.data ha, mk_data]

lemma marker_isPrefixOf (l : List Char) :
    refreshMarker.isPrefixOf (refreshMarker ++ l) = true := by
  simp [refreshMarker, List.isPrefixOf]

lemma redactTokenValue_plain (a b : String) (ha : ('-' : Char) ∉ a.data)
    (hx : refreshMarker.isPrefixOf (a ++ "-" ++ b).data = false) :
    redactTokenValue (a ++ "-" ++ b) = a ++ "-REDACTED" := by
  unfold redactTokenValue
  rw [hx]
  simp only [Bool.false_eq_true, if_false]
  exact redactCore_append a b ha

lemma redactTokenValue_refresh (s0 s1 : String) (h0 : ('-' : Char) ∉ s0.data) :
    redactTokenValue ("xoxe." ++ (s0 ++ "-" ++ s1)) = "xoxe." ++ (s0 ++ "-REDACTED") := by
  have hdata : ("xoxe." ++ (s0 ++ "-" ++ s1)).data
      = refreshMarker ++ (s0 ++ "-" ++ s1).data := by
    rw [String.data_append]
    rfl
  unfold redactTokenValue
  rw [hdata, marker_isPrefixOf]
  simp only [if_true]
  rw [List.drop_left' (show refreshMarker.length = 5 from rfl), mk_data,
    redactCore_append s0 s1 h0]
  rfl

lemma logFormValue_token (v : String) : logFormValue "token" v = redactTokenValue v :=
  if_pos rfl

lemma logFormValue_text (v : String) : logFormValue "text" v = v :=
  if_neg (by decide)

/-- C8: in the debug log of an outbound request body, the `token` field's
value loses everything after its leading segment — which is replaced by
`REDACTED`, keeping the `xoxe.` marker and its following segment for refresh
tokens — while the very same token string appearing as the `text` field is
logged unchanged. -/
theorem debug_log_redacts_token_only (a b s0 s1 : String)
    (ha : ('-' : Char) ∉ a.data) (h0 : ('-' : Char) ∉ s0.data)
    (hx : refreshMarker.isPrefixOf (a ++ "-" ++ b).data = false) :
    logFormBody [("token", a ++ "-" ++ b), ("text", a ++ "-" ++ b)]
      = [("token", a ++ "-REDACTED"), ("text", a ++ "-" ++ b)] ∧
    logFormBody [("token", "xoxe." ++ (s0 ++ "-" ++ s1)),
        ("text", "xoxe." ++ (s0 ++ "-" ++ s1))]
      = [("token", "xoxe." ++ (s0 ++ "-REDACTED")),
         ("text", "xoxe." ++ (s0 ++ "-" ++ s1))] := by
  constructor
  · simp only [logFormBody, List.map_cons, List.map_nil, logFormValue_token,
      logFormValue_text, redactTokenValue_plain a b ha hx]
  · simp only [logFormBody, List.map_cons, List.map_nil, logFormValue_token,
      logFormValue_text, redactTokenValue_refresh s0 s1 h0]

/-- Witness for C8 at the tokens of
`TestSendMessageContextRedactsTokenInDebugLog`: the regular token
`xtest-token-1234-abcd` logs as `xtest-REDACTED`, the refresh token
`xoxe.xtest-token-1234-abcd` logs as `xoxe.xtest-REDACTED`, and the same
strings in the `text` field are logged unchanged. -/
theorem debug_log_redacts_token_only_witness :
    logFormBody [("token", "xtest" ++ "-" ++ "token-1234-abcd"),
        ("text", "xtest" ++ "-" ++ "token-1234-abcd")]
      = [("token", "xtest" ++ "-REDACTED"), ("text", "xtest" ++ "-" ++ "token-1234-abcd")] ∧
    logFormBody [("token", "xoxe." ++ ("xtest" ++ "-" ++ "token-1234-abcd")),
        ("text", "xoxe." ++ ("xtest" ++ "-" ++ "token-1234-abcd"))]
      = [("token", "xoxe." ++ ("xtest" ++ "-REDACTED")),
         ("text", "xoxe." ++ ("xtest" ++ "-" ++ "token-1234-abcd"))] :=
  debug_log_redacts_token_only "xtest" "token-1234-abcd" "xtest" "token-1234-abcd"
    (by decide) (by decide) (by decide)

end SlackSpec
